import Mathlib

/-!
Shallow embedding of the aiverse-platform-data-fabric integration core.

The Python sources embedded here are:
- `src/integration/observability/signal_registry.py`
- `src/integration/observability/signal_emitter.py`
- `src/integration/mcop/registry_loader.py`
- `src/integration/mcop/intent_handler.py`
- `src/integration/mcop/capability_provider.py`

Python `dict`s are modelled as insertion-ordered association lists over
`String` keys (`alInsert` updates an existing key in place, as a Python
dict assignment does, and appends a fresh key at the end).  External
asynchronous collaborators (asset registry, observability spine, intent
engine, MCOP scheduler) are modelled as oracle functions returning
`Except String β`: `Except.error e` models the collaborator raising an
exception with text `e`, and `Except.ok b` models a normal return of `b`.
`uuid4()` is modelled by a per-instance counter, and `datetime.now` by a
fixed per-instance clock value; neither influences any control flow in
the source.
-/

set_option autoImplicit false

universe u

/-- Update-or-append on an association list: models a Python dict
assignment `d[k] = v` (an existing key keeps its position, a new key is
appended at the end). -/
def alInsert {α : Type u} (k : String) (v : α) : List (String × α) → List (String × α)
  | [] => [(k, v)]
  | (k2, v2) :: rest => if k2 = k then (k, v) :: rest else (k2, v2) :: alInsert k v rest

/-- Key lookup on an association list: models Python `d.get(k)`. -/
def alLookup {α : Type u} (k : String) : List (String × α) → Option α
  | [] => none
  | (k2, v2) :: rest => if k2 = k then some v2 else alLookup k rest

/-! ## Feedback signal registry (`signal_registry.py`) -/

/-- The `emission_trigger` dict of a signal definition.  The source reads
it only through `trigger.get("condition", "always")` and
`trigger.get("execution_units", [])`, so both keys are modelled as
optional. -/
structure EmissionTrigger where
  condition : Option String
  execution_units : Option (List String)
deriving DecidableEq

/-- One entry of `intended_consumers`: the source reads only the
`"consumer"` key (`consumers[0]["consumer"]`). -/
structure ConsumerEntry where
  consumer : String
deriving DecidableEq

/-- `SignalDefinition` dataclass from `signal_registry.py`.  The opaque
`schema` dict is modelled as an association list; the source never reads
into it. -/
structure SignalDefinition where
  name : String
  version : String
  signal_type : String
  description : String
  emission_trigger : EmissionTrigger
  schema : List (String × String)
  intended_consumers : List ConsumerEntry
  domain : String
deriving DecidableEq

/-- `SignalRegistry` dataclass: three per-category dicts keyed by signal
name. -/
structure SignalRegistry where
  metrics : List (String × SignalDefinition)
  outcomes : List (String × SignalDefinition)
  advisors : List (String × SignalDefinition)
deriving DecidableEq

/-- The default (empty) `SignalRegistry`. -/
def SignalRegistry.empty : SignalRegistry :=
  { metrics := [], outcomes := [], advisors := [] }

/-- `SignalRegistry.add`: store the signal in the dict matching its
`signal_type`; any other type is silently dropped (no `else` branch in
the source). -/
def SignalRegistry.add (r : SignalRegistry) (signal : SignalDefinition) : SignalRegistry :=
  if signal.signal_type = "metric" then
    { r with metrics := alInsert signal.name signal r.metrics }
  else if signal.signal_type = "outcome" then
    { r with outcomes := alInsert signal.name signal r.outcomes }
  else if signal.signal_type = "advisor" then
    { r with advisors := alInsert signal.name signal r.advisors }
  else r

/-- `SignalRegistry.get`: `metrics.get(name) or outcomes.get(name) or
advisors.get(name)`. -/
def SignalRegistry.get (r : SignalRegistry) (name : String) : Option SignalDefinition :=
  match alLookup name r.metrics with
  | some s => some s
  | none =>
    match alLookup name r.outcomes with
    | some s => some s
    | none => alLookup name r.advisors

/-- `SignalRegistry.get_all`: metric values, then outcome values, then
advisor values. -/
def SignalRegistry.get_all (r : SignalRegistry) : List SignalDefinition :=
  r.metrics.map Prod.snd ++ r.outcomes.map Prod.snd ++ r.advisors.map Prod.snd

/-- `SignalRegistry.get_by_type`. -/
def SignalRegistry.get_by_type (r : SignalRegistry) (signal_type : String) : List SignalDefinition :=
  if signal_type = "metric" then r.metrics.map Prod.snd
  else if signal_type = "outcome" then r.outcomes.map Prod.snd
  else if signal_type = "advisor" then r.advisors.map Prod.snd
  else []

/-- A registry obtained by a sequence of `add` calls starting from the
empty registry: exactly the states `FeedbackSignalRegistry.load` can
build (it adds each successfully parsed signal in file order). -/
def buildRegistry (signals : List SignalDefinition) : SignalRegistry :=
  signals.foldl SignalRegistry.add SignalRegistry.empty

/-- `FeedbackSignalRegistry.get_signal` on a loaded registry. -/
def get_signal (r : SignalRegistry) (name : String) : Option SignalDefinition :=
  r.get name

/-- `FeedbackSignalRegistry.get_signals_for_execution_unit`: every signal
whose `emission_trigger.get("execution_units", [])` contains the unit
name, in `get_all` order. -/
def get_signals_for_execution_unit (r : SignalRegistry) (eu_name : String) :
    List SignalDefinition :=
  r.get_all.filter (fun signal => (signal.emission_trigger.execution_units.getD []).contains eu_name)

/-! ## Feedback signal emitter (`signal_emitter.py`) -/

/-- `EmissionResult` dataclass.  `emission_id` (a `uuid4()` in the
source) and `timestamp` (`datetime.now`) are modelled as naturals. -/
structure EmissionResult where
  signal_name : String
  signal_type : String
  success : Bool
  emission_id : Nat
  timestamp : Nat
  error : Option String
deriving DecidableEq

/-- Oracle for the Observability Spine collaborator.  Arguments: signal
kind (`"metric"` / `"outcome"` / `"advisor"`), signal name, payload.
`Except.error e` models the spine call raising an exception rendered as
`e`; `Except.ok b` models it returning `b`.  The tenant context,
timestamp and (for advisors) intended consumer are forwarded verbatim by
the source and never influence its control flow, so the oracle elides
them. -/
def SpineModel : Type :=
  String → String → List (String × String) → Except String Bool

/-- `TenantContext` dict, threaded through unchanged. -/
structure TenantContext where
  organization_id : String
  workspace_id : String
  user_id : String
deriving DecidableEq

/-- `FeedbackSignalEmitter` instance state: optional spine, loaded signal
registry, append-only `_emissions` audit list.  `nextId` models the
`uuid4()` supply, `now` the clock, and `spineCalls` counts how many
times the external spine has been invoked (instrumentation for the
zero-external-calls property). -/
structure FeedbackSignalEmitter where
  spine : Option SpineModel
  registry : SignalRegistry
  emissions : List EmissionResult
  nextId : Nat
  now : Nat
  spineCalls : Nat

/-- Common body of `emit_metric` / `emit_outcome` / `emit_advisor` (the
three Python methods are verbatim copies of one another up to the kind
string and, for advisors, the extra `intended_consumer` argument that is
only forwarded to the spine).  Validation failure (unknown name, or a
definition of a different type) returns a failed result immediately,
without touching `_emissions` and without calling the spine; otherwise
the spine outcome (or mock success when no spine is configured) is
recorded and the result is appended to `_emissions`. -/
def FeedbackSignalEmitter.emitSignal (em : FeedbackSignalEmitter) (kind name : String)
    (intent_id : Nat) (values : List (String × String)) :
    EmissionResult × FeedbackSignalEmitter :=
  let signal_def := em.registry.get name
  if (signal_def.map (fun sd => sd.signal_type)) ≠ some kind then
    let result : EmissionResult :=
      { signal_name := name, signal_type := kind, success := false,
        emission_id := em.nextId, timestamp := em.now,
        error := some ("Unknown " ++ kind ++ ": " ++ name) }
    (result, { em with nextId := em.nextId + 1 })
  else
    let payload := ("intent_id", toString intent_id) :: ("domain", "data-fabric") :: values
    match em.spine with
    | none =>
      let result : EmissionResult :=
        { signal_name := name, signal_type := kind, success := true,
          emission_id := em.nextId, timestamp := em.now, error := none }
      (result, { em with emissions := em.emissions ++ [result], nextId := em.nextId + 1 })
    | some sp =>
      match sp kind name payload with
      | Except.ok success =>
        let result : EmissionResult :=
          { signal_name := name, signal_type := kind, success := success,
            emission_id := em.nextId, timestamp := em.now, error := none }
        (result, { em with emissions := em.emissions ++ [result], nextId := em.nextId + 1,
                           spineCalls := em.spineCalls + 1 })
      | Except.error e =>
        let result : EmissionResult :=
          { signal_name := name, signal_type := kind, success := false,
            emission_id := em.nextId, timestamp := em.now, error := some e }
        (result, { em with emissions := em.emissions ++ [result], nextId := em.nextId + 1,
                           spineCalls := em.spineCalls + 1 })

/-- `FeedbackSignalEmitter.emit_metric`. -/
def FeedbackSignalEmitter.emit_metric (em : FeedbackSignalEmitter) (metric_name : String)
    (intent_id : Nat) (tenant_context : TenantContext) (values : List (String × String)) :
    EmissionResult × FeedbackSignalEmitter :=
  em.emitSignal ("metric") metric_name intent_id values

/-- `FeedbackSignalEmitter.emit_outcome`. -/
def FeedbackSignalEmitter.emit_outcome (em : FeedbackSignalEmitter) (outcome_name : String)
    (intent_id : Nat) (tenant_context : TenantContext) (values : List (String × String)) :
    EmissionResult × FeedbackSignalEmitter :=
  em.emitSignal ("outcome") outcome_name intent_id values

/-- `FeedbackSignalEmitter.emit_advisor` (the `intended_consumer`
argument is only forwarded to the spine; see `SpineModel`). -/
def FeedbackSignalEmitter.emit_advisor (em : FeedbackSignalEmitter) (advisor_name : String)
    (intent_id : Nat) (tenant_context : TenantContext) (values : List (String × String))
    (intended_consumer : String) : EmissionResult × FeedbackSignalEmitter :=
  em.emitSignal ("advisor") advisor_name intent_id values

/-- The two `continue` guards of `emit_for_execution_unit`: a signal is
skipped when its condition is `on_success` without success or
`on_failure` with success; the condition defaults to `"always"`. -/
def trigger_allows (signal_def : SignalDefinition) (success : Bool) : Bool :=
  let condition := signal_def.emission_trigger.condition.getD ("always")
  if condition = "on_success" ∧ ¬ success then false
  else if condition = "on_failure" ∧ success then false
  else true

/-- Loop body of `emit_for_execution_unit` over the signal list. -/
def emitForUnitLoop (em : FeedbackSignalEmitter) (intent_id : Nat)
    (tenant_context : TenantContext) (execution_result : List (String × String))
    (success : Bool) : List SignalDefinition → List EmissionResult × FeedbackSignalEmitter
  | [] => ([], em)
  | signal_def :: rest =>
    if trigger_allows signal_def success then
      if signal_def.signal_type = "metric" then
        let step := em.emit_metric signal_def.name intent_id tenant_context execution_result
        let next := emitForUnitLoop step.2 intent_id tenant_context execution_result success rest
        (step.1 :: next.1, next.2)
      else if signal_def.signal_type = "outcome" then
        let step := em.emit_outcome signal_def.name intent_id tenant_context execution_result
        let next := emitForUnitLoop step.2 intent_id tenant_context execution_result success rest
        (step.1 :: next.1, next.2)
      else if signal_def.signal_type = "advisor" then
        let consumer :=
          match signal_def.intended_consumers with
          | [] => "unknown"
          | c :: _ => c.consumer
        let step :=
          em.emit_advisor signal_def.name intent_id tenant_context execution_result consumer
        let next := emitForUnitLoop step.2 intent_id tenant_context execution_result success rest
        (step.1 :: next.1, next.2)
      else
        emitForUnitLoop em intent_id tenant_context execution_result success rest
    else
      emitForUnitLoop em intent_id tenant_context execution_result success rest

/-- `FeedbackSignalEmitter.emit_for_execution_unit`: look up the signals
for the unit, and for each qualifying signal dispatch on its type to the
matching typed emit. -/
def FeedbackSignalEmitter.emit_for_execution_unit (em : FeedbackSignalEmitter)
    (execution_unit_name : String) (intent_id : Nat) (tenant_context : TenantContext)
    (execution_result : List (String × String)) (success : Bool) :
    List EmissionResult × FeedbackSignalEmitter :=
  let signals := get_signals_for_execution_unit em.registry execution_unit_name
  emitForUnitLoop em intent_id tenant_context execution_result success signals

/-- `FeedbackSignalEmitter.get_emissions` (the source returns a copy of
the list). -/
def FeedbackSignalEmitter.get_emissions (em : FeedbackSignalEmitter) : List EmissionResult :=
  em.emissions

/-! ## Registry card loader (`registry_loader.py`) -/

/-- `RegistryCard` dataclass.  Opaque contract dicts are modelled as
association lists; the source never reads into them. -/
structure RegistryCard where
  name : String
  version : String
  domain : String
  capability_type : String
  capability_tags : List String
  description : String
  input_contract : List (String × String)
  output_contract : List (String × String)
  consumer_intents : List String
  failure_modes : List String
  adr_reference : String
deriving DecidableEq

/-- The parsed JSON content of one registry-card file, as read by
`_load_card_from_file`: every field is fetched with `dict.get` and a
default, so each is optional here. -/
structure RawCardData where
  metadata_name : Option String
  metadata_version : Option String
  metadata_domain : Option String
  metadata_adr_reference : Option String
  capability_type : Option String
  capability_tags : Option (List String)
  capability_description : Option String
  input_contract : Option (List (String × String))
  output_contract : Option (List (String × String))
  consumer_intents : Option (List String)
  failure_modes : Option (List String)
deriving DecidableEq

/-- One file in the registry-cards directory: either it parses to card
data, or `json.load` raises a `JSONDecodeError` with the given text. -/
abbrev CardSource : Type :=
  Except String RawCardData

/-- `RegistryCardLoader._load_card_from_file` after the JSON parse: every
missing field is defaulted (`""`, `"1.0.0"`, `"data-fabric"`, `[]`,
`{}`), never rejected. -/
def load_card_from_data (d : RawCardData) : RegistryCard :=
  { name := d.metadata_name.getD ""
    version := d.metadata_version.getD ("1.0.0")
    domain := d.metadata_domain.getD ("data-fabric")
    capability_type := d.capability_type.getD ""
    capability_tags := d.capability_tags.getD []
    description := d.capability_description.getD ""
    input_contract := d.input_contract.getD []
    output_contract := d.output_contract.getD []
    consumer_intents := d.consumer_intents.getD []
    failure_modes := d.failure_modes.getD []
    adr_reference := d.metadata_adr_reference.getD "" }

/-- Whether a card source parses (no `JSONDecodeError`). -/
def isParsed : CardSource → Bool
  | Except.ok _ => true
  | Except.error _ => false

/-- `RegistryCardLoader.discover_cards`: parse each file independently;
a file whose parse raises is skipped with a recorded warning, every
parsed file yields a card.  Returns the cards and the warnings. -/
def discover_cards : List CardSource → List RegistryCard × List String
  | [] => ([], [])
  | Except.ok d :: rest =>
    let next := discover_cards rest
    (load_card_from_data d :: next.1, next.2)
  | Except.error e :: rest =>
    let next := discover_cards rest
    (next.1, ("Warning: Failed to load card: " ++ e) :: next.2)

/-- Oracle for `AssetRegistryClient.register_capability`: given the card
being registered, either return a fresh card id (`Except.ok`) or raise
(`Except.error`). -/
def RegisterModel : Type :=
  RegistryCard → Except String Nat

/-- Oracle for `AssetRegistryClient.unregister_capability`: given a card
id, either return a boolean or raise. -/
def UnregisterModel : Type :=
  Nat → Except String Bool

/-- `RegistryCardLoader` instance state: the declarative sources of its
cards directory and the `_registered_cards` name-to-id dict. -/
structure RegistryCardLoader where
  files : List CardSource
  registered_cards : List (String × Nat)

/-- Loop body of `load_all`: per card, a successful registration is
recorded in both the result dict and `_registered_cards`; a raising one
is logged and skipped. -/
def loadAllLoop (client : RegisterModel) :
    List RegistryCard → List (String × Nat) → List (String × Nat) →
    List (String × Nat) × List (String × Nat)
  | [], results, table => (results, table)
  | card :: rest, results, table =>
    match client card with
    | Except.ok card_id =>
      loadAllLoop client rest (alInsert card.name card_id results) (alInsert card.name card_id table)
    | Except.error _ =>
      loadAllLoop client rest results table

/-- `RegistryCardLoader.load_all`: discover the cards, then register each
with the external client. -/
def RegistryCardLoader.load_all (L : RegistryCardLoader) (client : RegisterModel) :
    List (String × Nat) × RegistryCardLoader :=
  let cards := (discover_cards L.files).1
  let out := loadAllLoop client cards [] L.registered_cards
  (out.1, { L with registered_cards := out.2 })

/-- Loop body of `unload_all` over a snapshot of `_registered_cards`:
an unregistration returning `True` removes the entry from the table; one
returning `False` or raising keeps it, reporting `False` for that card.
Returns the per-card results and the table of entries kept. -/
def unloadAllLoop (client : UnregisterModel) :
    List (String × Nat) → List (String × Bool) × List (String × Nat)
  | [] => ([], [])
  | (card_name, card_id) :: rest =>
    let next := unloadAllLoop client rest
    match client card_id with
    | Except.ok true => ((card_name, true) :: next.1, next.2)
    | Except.ok false => ((card_name, false) :: next.1, (card_name, card_id) :: next.2)
    | Except.error _ => ((card_name, false) :: next.1, (card_name, card_id) :: next.2)

/-- `RegistryCardLoader.unload_all`. -/
def RegistryCardLoader.unload_all (L : RegistryCardLoader) (client : UnregisterModel) :
    List (String × Bool) × RegistryCardLoader :=
  let out := unloadAllLoop client L.registered_cards
  (out.1, { L with registered_cards := out.2 })

/-- `RegistryCardLoader.get_registered_cards` (the source returns a
copy). -/
def RegistryCardLoader.get_registered_cards (L : RegistryCardLoader) : List (String × Nat) :=
  L.registered_cards

/-- `RegistryCardLoader.get_card_count`. -/
def RegistryCardLoader.get_card_count (L : RegistryCardLoader) : Nat :=
  L.registered_cards.length

/-! ## Intent handler (`intent_handler.py`) -/

/-- `ExecutionUnitRef` dataclass. -/
structure ExecutionUnitRef where
  name : String
  capability_type : String
  input_mapping : List (String × String)
deriving DecidableEq

/-- The static `INTENT_TO_EXECUTION_UNITS` module-level table, verbatim
from the source (14 intent types). -/
def INTENT_TO_EXECUTION_UNITS : List (String × List ExecutionUnitRef) :=
  [ ("RegisterDataAsset",
     [ { name := "DataAssetRegistrar", capability_type := "data-registration",
         input_mapping := [("asset_declaration", "asset_declaration")] } ]),
    ("IngestData",
     [ { name := "DataExtractor", capability_type := "data-extraction",
         input_mapping :=
           [("source_connection_ref", "extraction_input.source_connection_ref"),
            ("source_query_or_path", "extraction_input.source_query_or_path")] },
       { name := "DataWriter", capability_type := "data-writing",
         input_mapping :=
           [("staging_ref", "write_input.staging_ref"),
            ("target_dataset_ref", "write_input.target_dataset_ref")] },
       { name := "LineageEdgeWriter", capability_type := "lineage-recording",
         input_mapping :=
           [("source_asset_ref", "edge_input.source_asset_ref"),
            ("target_asset_ref", "edge_input.target_asset_ref")] } ]),
    ("TransformData",
     [ { name := "TransformExecutor", capability_type := "data-transformation",
         input_mapping :=
           [("input_data_ref", "transform_input.input_data_ref"),
            ("transformation_definition", "transform_input.transformation_definition")] },
       { name := "DataWriter", capability_type := "data-writing",
         input_mapping :=
           [("staging_ref", "write_input.staging_ref"),
            ("target_dataset_ref", "write_input.target_dataset_ref")] },
       { name := "LineageEdgeWriter", capability_type := "lineage-recording",
         input_mapping :=
           [("source_asset_ref", "edge_input.source_asset_ref"),
            ("target_asset_ref", "edge_input.target_asset_ref")] } ]),
    ("MaterializeFeatures",
     [ { name := "FeatureComputer", capability_type := "feature-computation",
         input_mapping :=
           [("source_data_ref", "compute_input.source_data_ref"),
            ("feature_definition_ref", "compute_input.feature_definition_ref")] },
       { name := "FeatureStoreWriter", capability_type := "feature-storage",
         input_mapping :=
           [("staging_ref", "write_input.staging_ref"),
            ("feature_set_ref", "write_input.feature_set_ref")] } ]),
    ("RetrieveFeatures",
     [ { name := "FeatureRetriever", capability_type := "feature-retrieval",
         input_mapping :=
           [("feature_set_ref", "retrieve_input.feature_set_ref"),
            ("entity_keys", "retrieve_input.entity_keys")] } ]),
    ("ProfileData",
     [ { name := "DataProfiler", capability_type := "data-profiling",
         input_mapping :=
           [("dataset_ref", "profile_input.dataset_ref"),
            ("sample_size", "profile_input.sample_size")] } ]),
    ("CommitDataVersion",
     [ { name := "DataCommitter", capability_type := "data-versioning",
         input_mapping :=
           [("dataset_ref", "commit_input.dataset_ref"),
            ("commit_message", "commit_input.commit_message")] } ]),
    ("BranchDataset",
     [ { name := "BranchCreator", capability_type := "data-branching",
         input_mapping :=
           [("dataset_ref", "branch_input.dataset_ref"),
            ("source_commit_ref", "branch_input.source_commit_ref")] } ]),
    ("MergeDataBranches",
     [ { name := "MergeComputer", capability_type := "data-merging",
         input_mapping :=
           [("source_commit_ref", "merge_input.source_commit_ref"),
            ("target_commit_ref", "merge_input.target_commit_ref")] },
       { name := "DataCommitter", capability_type := "data-versioning",
         input_mapping :=
           [("dataset_ref", "commit_input.dataset_ref"),
            ("commit_message", "commit_input.commit_message")] } ]),
    ("CreateLabelTask",
     [ { name := "LabelTaskCreator", capability_type := "labeling-task",
         input_mapping :=
           [("source_dataset_ref", "task_input.source_dataset_ref"),
            ("label_schema_ref", "task_input.label_schema_ref")] } ]),
    ("TestConnection",
     [ { name := "ConnectionProbe", capability_type := "connection-testing",
         input_mapping :=
           [("connection_ref", "probe_input.connection_ref"),
            ("timeout_seconds", "probe_input.timeout_seconds")] } ]),
    ("DiscoverSchema",
     [ { name := "SchemaIntrospector", capability_type := "schema-discovery",
         input_mapping :=
           [("connection_ref", "introspection_input.connection_ref"),
            ("source_path", "introspection_input.source_path")] } ]),
    ("ReplicateData",
     [ { name := "DataReplicator", capability_type := "data-replication",
         input_mapping :=
           [("source_location_ref", "replication_input.source_location_ref"),
            ("target_location_ref", "replication_input.target_location_ref")] } ]),
    ("QueryLocality",
     [ { name := "LocalitySignalGenerator", capability_type := "locality-signaling",
         input_mapping := [("asset_ref", "asset_ref")] } ]),
    ("ValidateSchema",
     [ { name := "SchemaValidator", capability_type := "schema-validation",
         input_mapping :=
           [("dataset_ref", "validation_input.dataset_ref"),
            ("expected_schema_ref", "validation_input.expected_schema_ref")] } ]) ]

/-- One entry of the `eu_specs` list `handle_intent` builds for MCOP. -/
structure EUSpec where
  name : String
  capability_type : String
  input_mapping : List (String × String)
  domain : String
deriving DecidableEq

/-- The spec dict built from one `ExecutionUnitRef` inside
`handle_intent` (`domain` is the class constant `"data-fabric"`). -/
def euSpec (eu : ExecutionUnitRef) : EUSpec :=
  { name := eu.name, capability_type := eu.capability_type,
    input_mapping := eu.input_mapping, domain := "data-fabric" }

/-- The dict returned by `handle_intent`: only the keys present on the
taken path are `some`. -/
structure IntentResult where
  success : Bool
  error : Option String
  intent_id : Option String
  intent_type : Option String
  domain : String
  execution_units : Option (List EUSpec)
  unit_count : Option Nat
deriving DecidableEq

/-- Oracle for the optional `IntentEngine.decompose_intent` collaborator:
given the intent id and unit specs, raise (`Except.error`) or return a
boolean (`Except.ok`; the source ignores the returned value). -/
def IntentEngineModel : Type :=
  Nat → List EUSpec → Except String Bool

/-- `DataFabricIntentHandler.get_execution_units_for_intent`. -/
def get_execution_units_for_intent (intent_type : String) : Option (List ExecutionUnitRef) :=
  alLookup intent_type INTENT_TO_EXECUTION_UNITS

/-- `DataFabricIntentHandler.is_supported_intent`: membership in the
static table's key set. -/
def is_supported_intent (intent_type : String) : Bool :=
  (alLookup intent_type INTENT_TO_EXECUTION_UNITS).isSome

/-- The `eu_specs` list `handle_intent` builds for a supported intent
(empty for an unsupported one). -/
def eu_specs_for (intent_type : String) : List EUSpec :=
  ((alLookup intent_type INTENT_TO_EXECUTION_UNITS).getD []).map euSpec

/-- `DataFabricIntentHandler.handle_intent`.  `intent_params` is accepted
and never read, as in the source.  The first guard returns the
unsupported-intent failure; `if not execution_units` catches both a
missing mapping and an empty one; a configured intent engine that raises
converts the result to failure; its returned boolean is ignored. -/
def handle_intent (intent_engine : Option IntentEngineModel) (intent_id : Nat)
    (intent_type : String) (intent_params : List (String × String)) : IntentResult :=
  if ¬ is_supported_intent intent_type then
    { success := false, error := some ("Unsupported intent type: " ++ intent_type),
      intent_id := none, intent_type := none, domain := "data-fabric",
      execution_units := none, unit_count := none }
  else
    match get_execution_units_for_intent intent_type with
    | none =>
      { success := false, error := some ("No execution units mapped for intent: " ++ intent_type),
        intent_id := none, intent_type := none, domain := "data-fabric",
        execution_units := none, unit_count := none }
    | some execution_units =>
      if execution_units.isEmpty then
        { success := false,
          error := some ("No execution units mapped for intent: " ++ intent_type),
          intent_id := none, intent_type := none, domain := "data-fabric",
          execution_units := none, unit_count := none }
      else
        let eu_specs := execution_units.map euSpec
        let ok : IntentResult :=
          { success := true, error := none, intent_id := some (toString intent_id),
            intent_type := some intent_type, domain := "data-fabric",
            execution_units := some eu_specs, unit_count := some eu_specs.length }
        match intent_engine with
        | none => ok
        | some engine =>
          match engine intent_id eu_specs with
          | Except.ok _ => ok
          | Except.error e =>
            { success := false, error := some ("Failed to submit decomposition: " ++ e),
              intent_id := none, intent_type := none, domain := "data-fabric",
              execution_units := none, unit_count := none }

/-! ## Capability provider (`capability_provider.py`) -/

/-- `CapabilityProfile` dataclass. -/
structure CapabilityProfile where
  capability_type : String
  compute_class : String
  memory_requirements : String
  io_pattern : String
  tags : List String
deriving DecidableEq

/-- The static `EXECUTION_UNIT_CAPABILITIES` module-level table, verbatim
from the source (22 execution units). -/
def EXECUTION_UNIT_CAPABILITIES : List (String × CapabilityProfile) :=
  [ ("DataAssetRegistrar",
     { capability_type := "data-registration", compute_class := "cpu-small",
       memory_requirements := "low", io_pattern := "write-registry",
       tags := ["registry", "metadata", "stateless"] }),
    ("ConnectionProbe",
     { capability_type := "connection-testing", compute_class := "cpu-small",
       memory_requirements := "low", io_pattern := "network-probe",
       tags := ["connection", "health", "stateless"] }),
    ("SchemaIntrospector",
     { capability_type := "schema-discovery", compute_class := "cpu-small",
       memory_requirements := "low", io_pattern := "read-external",
       tags := ["schema", "discovery", "stateless"] }),
    ("DataExtractor",
     { capability_type := "data-extraction", compute_class := "cpu-medium",
       memory_requirements := "medium", io_pattern := "read-external-write-staging",
       tags := ["extraction", "ingestion", "stateless"] }),
    ("DataWriter",
     { capability_type := "data-writing", compute_class := "cpu-medium",
       memory_requirements := "medium", io_pattern := "read-staging-write-dataset",
       tags := ["write", "persistence", "stateless"] }),
    ("TransformExecutor",
     { capability_type := "data-transformation", compute_class := "cpu-large",
       memory_requirements := "high", io_pattern := "read-process-write",
       tags := ["transform", "processing", "stateless"] }),
    ("DataJoiner",
     { capability_type := "data-joining", compute_class := "cpu-large",
       memory_requirements := "high", io_pattern := "read-multi-write",
       tags := ["join", "merge", "stateless"] }),
    ("AggregationComputer",
     { capability_type := "data-aggregation", compute_class := "cpu-medium",
       memory_requirements := "high", io_pattern := "read-aggregate-write",
       tags := ["aggregation", "analytics", "stateless"] }),
    ("FeatureComputer",
     { capability_type := "feature-computation", compute_class := "cpu-large",
       memory_requirements := "high", io_pattern := "read-compute-write",
       tags := ["feature", "ml", "stateless"] }),
    ("FeatureStoreWriter",
     { capability_type := "feature-storage", compute_class := "cpu-medium",
       memory_requirements := "medium", io_pattern := "read-staging-write-store",
       tags := ["feature", "store", "stateless"] }),
    ("FeatureRetriever",
     { capability_type := "feature-retrieval", compute_class := "cpu-small",
       memory_requirements := "low", io_pattern := "read-store",
       tags := ["feature", "retrieval", "stateless"] }),
    ("DataProfiler",
     { capability_type := "data-profiling", compute_class := "cpu-medium",
       memory_requirements := "medium", io_pattern := "read-analyze",
       tags := ["profiling", "quality", "stateless"] }),
    ("SchemaValidator",
     { capability_type := "schema-validation", compute_class := "cpu-small",
       memory_requirements := "low", io_pattern := "read-validate",
       tags := ["schema", "validation", "stateless"] }),
    ("DataCommitter",
     { capability_type := "data-versioning", compute_class := "cpu-small",
       memory_requirements := "low", io_pattern := "read-commit",
       tags := ["commit", "versioning", "stateless"] }),
    ("BranchCreator",
     { capability_type := "data-branching", compute_class := "cpu-small",
       memory_requirements := "low", io_pattern := "write-registry",
       tags := ["branch", "versioning", "stateless"] }),
    ("MergeComputer",
     { capability_type := "data-merging", compute_class := "cpu-medium",
       memory_requirements := "medium", io_pattern := "read-multi-compute",
       tags := ["merge", "versioning", "stateless"] }),
    ("DataReplicator",
     { capability_type := "data-replication", compute_class := "cpu-medium",
       memory_requirements := "medium", io_pattern := "read-write-remote",
       tags := ["replication", "locality", "stateless"] }),
    ("LocalitySignalGenerator",
     { capability_type := "locality-signaling", compute_class := "cpu-small",
       memory_requirements := "low", io_pattern := "read-probe",
       tags := ["locality", "scheduling", "stateless"] }),
    ("LabelTaskCreator",
     { capability_type := "labeling-task", compute_class := "cpu-small",
       memory_requirements := "low", io_pattern := "write-registry",
       tags := ["labeling", "task", "stateless"] }),
    ("LabelRecorder",
     { capability_type := "label-recording", compute_class := "cpu-small",
       memory_requirements := "low", io_pattern := "write-store",
       tags := ["labeling", "annotation", "stateless"] }),
    ("LineageEdgeWriter",
     { capability_type := "lineage-recording", compute_class := "cpu-small",
       memory_requirements := "low", io_pattern := "write-registry",
       tags := ["lineage", "provenance", "stateless"] }),
    ("QualityGateEvaluator",
     { capability_type := "quality-evaluation", compute_class := "cpu-medium",
       memory_requirements := "medium", io_pattern := "read-evaluate",
       tags := ["quality", "gate", "stateless"] }) ]

/-- Oracle for `MCOPScheduler.provide_capability`: raise or return a
boolean. -/
def SchedulerModel : Type :=
  String → CapabilityProfile → Except String Bool

/-- `DataFabricCapabilityProvider` instance state: the optional scheduler
and the `_provided_capabilities` set (modelled as a duplicate-free list
in insertion order). -/
structure DataFabricCapabilityProvider where
  mcop_scheduler : Option SchedulerModel
  provided_capabilities : List String

/-- Python `set.add`. -/
def setAdd (l : List String) (x : String) : List String :=
  if l.contains x then l else l ++ [x]

/-- Loop body of `provide_all_capabilities` when a scheduler is
configured: per unit, a raising call is logged and reported `False`; a
returned `True` additionally records the unit in
`_provided_capabilities`. -/
def provideAllLoop (scheduler : SchedulerModel) :
    List (String × CapabilityProfile) → List String → List (String × Bool) × List String
  | [], provided => ([], provided)
  | (name, profile) :: rest, provided =>
    match scheduler name profile with
    | Except.ok success =>
      let provided2 := if success then setAdd provided name else provided
      let next := provideAllLoop scheduler rest provided2
      ((name, success) :: next.1, next.2)
    | Except.error _ =>
      let next := provideAllLoop scheduler rest provided
      ((name, false) :: next.1, next.2)

/-- `DataFabricCapabilityProvider.provide_all_capabilities`: with no
scheduler configured, return mock success for every unit in the table
without touching `_provided_capabilities`; otherwise run the loop. -/
def DataFabricCapabilityProvider.provide_all_capabilities
    (p : DataFabricCapabilityProvider) :
    List (String × Bool) × DataFabricCapabilityProvider :=
  match p.mcop_scheduler with
  | none => (EXECUTION_UNIT_CAPABILITIES.map (fun entry => (entry.1, true)), p)
  | some scheduler =>
    let out := provideAllLoop scheduler EXECUTION_UNIT_CAPABILITIES p.provided_capabilities
    (out.1, { p with provided_capabilities := out.2 })

/-- `DataFabricCapabilityProvider.get_provided_capabilities` (the source
returns a copy of the set). -/
def DataFabricCapabilityProvider.get_provided_capabilities
    (p : DataFabricCapabilityProvider) : List String :=
  p.provided_capabilities

/-! ## Measurement helpers and concrete example data -/

/-- How many definitions the registry holds under a given name, across
all three categories of `get_all`. -/
def countByName (signals : List SignalDefinition) (n : String) : Nat :=
  (signals.filter (fun s => s.name == n)).length

/-- Well-formedness of one registry bucket: every entry is keyed by its
signal's name, carries the bucket's type, and keys are duplicate-free.
`add` establishes this by construction. -/
def bucketOk (t : String) (l : List (String × SignalDefinition)) : Prop :=
  (∀ p ∈ l, p.1 = p.2.name ∧ p.2.signal_type = t) ∧ (l.map Prod.fst).Nodup

/-- Well-formedness of a `SignalRegistry`: all three buckets are
well-formed.  Holds for every registry built by `add` from empty. -/
def RegistryOk (r : SignalRegistry) : Prop :=
  bucketOk ("metric") r.metrics ∧ bucketOk ("outcome") r.outcomes
    ∧ bucketOk ("advisor") r.advisors

/-- A concrete tenant context. -/
def tcEx : TenantContext :=
  { organization_id := "org-1", workspace_id := "ws-1", user_id := "user-1" }

/-- A metric signal named `MX`, condition `always`, triggered by unit
`U`. -/
def exSigM : SignalDefinition :=
  { name := "MX", version := "1.0.0", signal_type := "metric", description := "",
    emission_trigger := { condition := some ("always"), execution_units := some ["U"] },
    schema := [], intended_consumers := [], domain := "data-fabric" }

/-- An outcome signal named `OY`, condition `on_failure`, triggered by
unit `U`. -/
def exSigO : SignalDefinition :=
  { name := "OY", version := "1.0.0", signal_type := "outcome", description := "",
    emission_trigger := { condition := some ("on_failure"), execution_units := some ["U"] },
    schema := [], intended_consumers := [], domain := "data-fabric" }

/-- An advisor signal named `AZ`, no condition key (defaults to
`always`), triggered by unit `U`. -/
def exSigA : SignalDefinition :=
  { name := "AZ", version := "1.0.0", signal_type := "advisor", description := "",
    emission_trigger := { condition := none, execution_units := some ["U"] },
    schema := [], intended_consumers := [{ consumer := "scheduler" }], domain := "data-fabric" }

/-- A metric signal named `S`, condition `on_success`, triggered by unit
`U`. -/
def exSigS : SignalDefinition :=
  { name := "S", version := "1.0.0", signal_type := "metric", description := "",
    emission_trigger := { condition := some ("on_success"), execution_units := some ["U"] },
    schema := [], intended_consumers := [], domain := "data-fabric" }

/-- A metric signal named `X`. -/
def exSigXMetric : SignalDefinition :=
  { name := "X", version := "1.0.0", signal_type := "metric", description := "first",
    emission_trigger := { condition := some ("always"), execution_units := some [] },
    schema := [], intended_consumers := [], domain := "data-fabric" }

/-- A second metric signal named `X` (distinguishable content). -/
def exSigXMetric2 : SignalDefinition :=
  { name := "X", version := "2.0.0", signal_type := "metric", description := "second",
    emission_trigger := { condition := some ("always"), execution_units := some [] },
    schema := [], intended_consumers := [], domain := "data-fabric" }

/-- An outcome signal named `X` (same name as `exSigXMetric`, different
type). -/
def exSigXOutcome : SignalDefinition :=
  { name := "X", version := "1.0.0", signal_type := "outcome", description := "dup",
    emission_trigger := { condition := some ("always"), execution_units := some [] },
    schema := [], intended_consumers := [], domain := "data-fabric" }

/-- An emitter with no spine and an empty registry. -/
def emitterEmpty : FeedbackSignalEmitter :=
  { spine := none, registry := SignalRegistry.empty, emissions := [],
    nextId := 0, now := 0, spineCalls := 0 }

/-- An emitter with no spine and a registry loaded with one metric, one
outcome and one advisor signal. -/
def emitterLoaded : FeedbackSignalEmitter :=
  { spine := none, registry := buildRegistry [exSigM, exSigO, exSigA], emissions := [],
    nextId := 0, now := 0, spineCalls := 0 }

/-- An emitter whose registry holds an `always` metric and an
`on_success` metric, both triggered by unit `U`. -/
def emitterTriggers : FeedbackSignalEmitter :=
  { spine := none, registry := buildRegistry [exSigM, exSigS], emissions := [],
    nextId := 0, now := 0, spineCalls := 0 }

/-- A fully populated raw card named `A`. -/
def exRawA : RawCardData :=
  { metadata_name := some ("A"), metadata_version := some ("1.0.0"),
    metadata_domain := some ("data-fabric"), metadata_adr_reference := some ("adr-1"),
    capability_type := some ("data-extraction"), capability_tags := some ["stateless"],
    capability_description := some ("card A"),
    input_contract := some [("type", "object")], output_contract := some [("type", "object")],
    consumer_intents := some ["IngestData"], failure_modes := some [] }

/-- A raw card named `B` missing `capability.type`. -/
def exRawB : RawCardData :=
  { metadata_name := some ("B"), metadata_version := some ("1.0.0"),
    metadata_domain := some ("data-fabric"), metadata_adr_reference := none,
    capability_type := none, capability_tags := some ["stateless"],
    capability_description := some ("card B"),
    input_contract := some [("type", "object")], output_contract := some [("type", "object")],
    consumer_intents := some [], failure_modes := some [] }

/-- A fully populated raw card named `C`. -/
def exRawC : RawCardData :=
  { metadata_name := some ("C"), metadata_version := some ("1.0.0"),
    metadata_domain := some ("data-fabric"), metadata_adr_reference := some ("adr-2"),
    capability_type := some ("data-writing"), capability_tags := some ["stateless"],
    capability_description := some ("card C"),
    input_contract := some [("type", "object")], output_contract := some [("type", "object")],
    consumer_intents := some ["IngestData"], failure_modes := some [] }

/-- A loader over a single well-formed card source, nothing registered
yet. -/
def exLoaderA : RegistryCardLoader :=
  { files := [Except.ok exRawA], registered_cards := [] }

/-- A capability provider constructed without an MCOP scheduler. -/
def providerNoSched : DataFabricCapabilityProvider :=
  { mcop_scheduler := none, provided_capabilities := [] }

/-! ## Association-list lemmas -/

theorem alLookup_alInsert_self {α : Type u} (k : String) (v : α) (l : List (String × α)) :
    alLookup k (alInsert k v l) = some v := by
  induction l with
  | nil => simp [alInsert, alLookup]
  | cons head tail ih =>
    obtain ⟨k2, v2⟩ := head
    by_cases h : k2 = k
    · simp [alInsert, h, alLookup]
    · simp [alInsert, h, alLookup, ih]

theorem alLookup_alInsert_ne {α : Type u} (k q : String) (v : α) (l : List (String × α))
    (h : q ≠ k) : alLookup q (alInsert k v l) = alLookup q l := by
  induction l with
  | nil => simp [alInsert, alLookup, Ne.symm h]
  | cons head tail ih =>
    obtain ⟨k2, v2⟩ := head
    by_cases h2 : k2 = k
    · subst h2
      simp [alInsert, alLookup, Ne.symm h]
    · simp [alInsert, h2, alLookup, ih]

theorem alLookup_mem {α : Type u} (k : String) (v : α) (l : List (String × α))
    (h : alLookup k l = some v) : (k, v) ∈ l := by
  induction l with
  | nil => simp [alLookup] at h
  | cons head tail ih =>
    obtain ⟨k2, v2⟩ := head
    by_cases h2 : k2 = k
    · subst h2
      simp [alLookup] at h
      simp [h]
    · simp [alLookup, h2] at h
      exact List.mem_cons_of_mem _ (ih h)

theorem alLookup_eq_none_iff {α : Type u} (k : String) (l : List (String × α)) :
    alLookup k l = none ↔ k ∉ l.map Prod.fst := by
  induction l with
  | nil => simp [alLookup]
  | cons head tail ih =>
    obtain ⟨k2, v2⟩ := head
    by_cases h2 : k2 = k
    · subst h2
      simp [alLookup]
    · have h3 : ¬ k = k2 := fun hh => h2 hh.symm
      simp only [alLookup, if_neg h2, List.map_cons, List.mem_cons]
      rw [ih]
      simp [h3]

theorem mem_alInsert {α : Type u} (p : String × α) (k : String) (v : α)
    (l : List (String × α)) (h : p ∈ alInsert k v l) : p = (k, v) ∨ p ∈ l := by
  induction l with
  | nil => simpa [alInsert] using h
  | cons head tail ih =>
    obtain ⟨k2, v2⟩ := head
    by_cases h2 : k2 = k
    · subst h2
      simp only [alInsert, if_pos rfl] at h
      rcases List.mem_cons.mp h with h3 | h3
      · exact Or.inl h3
      · exact Or.inr (List.mem_cons_of_mem _ h3)
    · simp only [alInsert, if_neg h2] at h
      rcases List.mem_cons.mp h with h3 | h3
      · exact Or.inr (h3 ▸ List.mem_cons_self _ _)
      · rcases ih h3 with h4 | h4
        · exact Or.inl h4
        · exact Or.inr (List.mem_cons_of_mem _ h4)

theorem mem_keys_alInsert {α : Type u} (x k : String) (v : α) (l : List (String × α)) :
    x ∈ (alInsert k v l).map Prod.fst ↔ x = k ∨ x ∈ l.map Prod.fst := by
  induction l with
  | nil => simp [alInsert]
  | cons head tail ih =>
    obtain ⟨k2, v2⟩ := head
    by_cases h2 : k2 = k
    · subst h2
      simp [alInsert]
    · simp [alInsert, h2, ih]
      tauto

theorem nodup_keys_alInsert {α : Type u} (k : String) (v : α) (l : List (String × α))
    (h : (l.map Prod.fst).Nodup) : ((alInsert k v l).map Prod.fst).Nodup := by
  induction l with
  | nil => simp [alInsert]
  | cons head tail ih =>
    obtain ⟨k2, v2⟩ := head
    simp only [List.map_cons, List.nodup_cons] at h
    by_cases h2 : k2 = k
    · subst h2
      simpa [alInsert] using h
    · simp only [alInsert, if_neg h2, List.map_cons, List.nodup_cons]
      refine ⟨fun hmem => ?_, ih h.2⟩
      rcases (mem_keys_alInsert k2 k v tail).mp hmem with h3 | h3
      · exact h2 h3
      · exact h.1 h3

/-! ## Emitter lemmas -/

theorem emitSignal_fst_signal_name (em : FeedbackSignalEmitter) (kind name : String)
    (intent_id : Nat) (values : List (String × String)) :
    (em.emitSignal kind name intent_id values).1.signal_name = name := by
  simp only [FeedbackSignalEmitter.emitSignal]
  split
  · rfl
  · split
    · rfl
    · split <;> rfl

theorem emitSignal_appends (em : FeedbackSignalEmitter) (kind name : String)
    (intent_id : Nat) (values : List (String × String))
    (h : (em.registry.get name).map (fun sd => sd.signal_type) = some kind) :
    (em.emitSignal kind name intent_id values).2.emissions
      = em.emissions ++ [(em.emitSignal kind name intent_id values).1] := by
  simp only [FeedbackSignalEmitter.emitSignal, h, ne_eq, not_true_eq_false, if_false]
  split
  · rfl
  · split <;> rfl

theorem emitSignal_invalid (em : FeedbackSignalEmitter) (kind name : String)
    (intent_id : Nat) (values : List (String × String))
    (h : (em.registry.get name).map (fun sd => sd.signal_type) ≠ some kind) :
    (em.emitSignal kind name intent_id values).1.success = false
    ∧ (em.emitSignal kind name intent_id values).1.error
        = some ("Unknown " ++ kind ++ ": " ++ name)
    ∧ (em.emitSignal kind name intent_id values).2
        = { em with nextId := em.nextId + 1 } := by
  simp only [FeedbackSignalEmitter.emitSignal]
  rw [if_pos h]
  exact ⟨rfl, rfl, rfl⟩

/-! ## Claim theorems -/

/-- **C1, counterexample.** On an emitter with an empty registry,
`emit_metric` for the unknown signal `X` returns an `EmissionResult` but
appends nothing to the audit log: `get_emissions` has not grown at all,
falsifying the claim that every call grows it by exactly one entry. -/
theorem emitter_unknown_signal_not_recorded :
    (emitterEmpty.emit_metric ("X") 0 tcEx []).2.get_emissions = []
    ∧ ¬ ((emitterEmpty.emit_metric ("X") 0 tcEx []).2.get_emissions.length
          = emitterEmpty.get_emissions.length + 1) := by
  decide

/-- **C1, amended.** For every call to `emit_metric`, `emit_outcome` or
`emit_advisor` where the named signal exists in the registry with the
matching type — whatever the external sink does (not configured,
returns, or raises) — exactly one `EmissionResult` is appended to the
audit log, and it is the returned result.  (A call failing validation
returns its failed result without appending it.) -/
theorem emitter_audit_append_on_valid_signal
    (em : FeedbackSignalEmitter) (name : String) (intent_id : Nat) (tc : TenantContext)
    (values : List (String × String)) (consumer : String) (sd : SignalDefinition)
    (hget : em.registry.get name = some sd) :
    (sd.signal_type = "metric" →
      (em.emit_metric name intent_id tc values).2.get_emissions
        = em.get_emissions ++ [(em.emit_metric name intent_id tc values).1])
    ∧ (sd.signal_type = "outcome" →
      (em.emit_outcome name intent_id tc values).2.get_emissions
        = em.get_emissions ++ [(em.emit_outcome name intent_id tc values).1])
    ∧ (sd.signal_type = "advisor" →
      (em.emit_advisor name intent_id tc values consumer).2.get_emissions
        = em.get_emissions ++ [(em.emit_advisor name intent_id tc values consumer).1]) := by
  refine ⟨fun h => ?_, fun h => ?_, fun h => ?_⟩
  · exact emitSignal_appends em ("metric") name intent_id values (by rw [hget]; simp [h])
  · exact emitSignal_appends em ("outcome") name intent_id values (by rw [hget]; simp [h])
  · exact emitSignal_appends em ("advisor") name intent_id values (by rw [hget]; simp [h])

/-- **C1, witness.** On a loaded registry, each of the three typed emit
calls appends its returned result to the audit log. -/
theorem emitter_audit_append_on_valid_signal_witness :
    ((emitterLoaded.emit_metric ("MX") 0 tcEx []).2.get_emissions
       = emitterLoaded.get_emissions ++ [(emitterLoaded.emit_metric ("MX") 0 tcEx []).1])
    ∧ ((emitterLoaded.emit_outcome ("OY") 0 tcEx []).2.get_emissions
       = emitterLoaded.get_emissions ++ [(emitterLoaded.emit_outcome ("OY") 0 tcEx []).1])
    ∧ ((emitterLoaded.emit_advisor ("AZ") 0 tcEx [] ("scheduler")).2.get_emissions
       = emitterLoaded.get_emissions
           ++ [(emitterLoaded.emit_advisor ("AZ") 0 tcEx [] ("scheduler")).1]) :=
  ⟨(emitter_audit_append_on_valid_signal emitterLoaded ("MX") 0 tcEx [] ("scheduler")
      exSigM (by decide)).1 (by decide),
   (emitter_audit_append_on_valid_signal emitterLoaded ("OY") 0 tcEx [] ("scheduler")
      exSigO (by decide)).2.1 (by decide),
   (emitter_audit_append_on_valid_signal emitterLoaded ("AZ") 0 tcEx [] ("scheduler")
      exSigA (by decide)).2.2 (by decide)⟩

/-- **C9.** For every name not registered as a metric signal (unknown,
or registered with a different type), `emit_metric` returns a failed
`EmissionResult` with a non-null error and performs zero calls on the
external observability sink. -/
theorem emit_metric_unknown_fails_no_sink_call
    (em : FeedbackSignalEmitter) (name : String) (intent_id : Nat) (tc : TenantContext)
    (values : List (String × String))
    (h : ∀ sd : SignalDefinition, em.registry.get name = some sd → sd.signal_type ≠ "metric") :
    (em.emit_metric name intent_id tc values).1.success = false
    ∧ (em.emit_metric name intent_id tc values).1.error
        = some ("Unknown metric: " ++ name)
    ∧ (em.emit_metric name intent_id tc values).2.spineCalls = em.spineCalls := by
  have hm : (em.registry.get name).map (fun sd => sd.signal_type) ≠ some ("metric") := by
    cases hg : em.registry.get name with
    | none => simp
    | some sd => simpa using h sd hg
  obtain ⟨h1, h2, h3⟩ := emitSignal_invalid em ("metric") name intent_id values hm
  refine ⟨h1, h2, ?_⟩
  rw [show (em.emit_metric name intent_id tc values).2
        = { em with nextId := em.nextId + 1 } from h3]

/-- **C9, witness.** `emit_metric` on `NoSuchSignal` against an empty
registry fails with the expected error and leaves the sink-call count at
zero. -/
theorem emit_metric_unknown_fails_no_sink_call_witness :
    (emitterEmpty.emit_metric ("NoSuchSignal") 0 tcEx []).1.success = false
    ∧ (emitterEmpty.emit_metric ("NoSuchSignal") 0 tcEx []).1.error
        = some ("Unknown metric: " ++ "NoSuchSignal")
    ∧ (emitterEmpty.emit_metric ("NoSuchSignal") 0 tcEx []).2.spineCalls
        = emitterEmpty.spineCalls :=
  emit_metric_unknown_fails_no_sink_call emitterEmpty ("NoSuchSignal") 0 tcEx []
    (fun sd hsd => by
      simp [emitterEmpty, SignalRegistry.get, SignalRegistry.empty, alLookup] at hsd)

/-- The emission produced by `emitForUnitLoop` for each signal carries
that signal's name, and exactly the signals passing the trigger check
produce one, in order. -/
theorem emitForUnitLoop_names (intent_id : Nat) (tc : TenantContext)
    (er : List (String × String)) (s : Bool) :
    ∀ (sigs : List SignalDefinition) (em : FeedbackSignalEmitter),
      (∀ sd ∈ sigs, sd.signal_type = "metric" ∨ sd.signal_type = "outcome"
          ∨ sd.signal_type = "advisor") →
      ((emitForUnitLoop em intent_id tc er s sigs).1.map (fun r => r.signal_name))
        = (sigs.filter (fun sd => trigger_allows sd s)).map (fun sd => sd.name) := by
  intro sigs
  induction sigs with
  | nil => intro em h; rfl
  | cons sd rest ih =>
    intro em h
    have hrest := fun x hx => h x (List.mem_cons_of_mem _ hx)
    cases ht : trigger_allows sd s with
    | false => simp [emitForUnitLoop, ht, ih _ hrest]
    | true =>
      rcases h sd (List.mem_cons_self _ _) with hm | ho | ha
      · simp [emitForUnitLoop, ht, hm, ih _ hrest, FeedbackSignalEmitter.emit_metric,
          emitSignal_fst_signal_name]
      · simp [emitForUnitLoop, ht, ho, ih _ hrest, FeedbackSignalEmitter.emit_outcome,
          emitSignal_fst_signal_name]
      · simp [emitForUnitLoop, ht, ha, ih _ hrest, FeedbackSignalEmitter.emit_advisor,
          emitSignal_fst_signal_name]

/-- **C5.** For a registry whose signals all carry one of the three
types (every registry reachable through `add` does), a completion event
for a unit produces one `EmissionResult` per signal of that unit exactly
when the signal's `emission_trigger.condition` qualifies — `always`
both ways, `on_success` only on success, `on_failure` only on failure —
and a non-qualifying signal produces none: the emitted results, in
order, carry exactly the names of the qualifying signals. -/
theorem emit_for_unit_trigger_filter
    (em : FeedbackSignalEmitter) (unit : String) (intent_id : Nat) (tc : TenantContext)
    (er : List (String × String)) (s : Bool)
    (hwt : ∀ sd ∈ em.registry.get_all, sd.signal_type = "metric"
        ∨ sd.signal_type = "outcome" ∨ sd.signal_type = "advisor") :
    ((em.emit_for_execution_unit unit intent_id tc er s).1.map (fun r => r.signal_name))
      = ((get_signals_for_execution_unit em.registry unit).filter
          (fun sd => trigger_allows sd s)).map (fun sd => sd.name) :=
  emitForUnitLoop_names intent_id tc er s (get_signals_for_execution_unit em.registry unit) em
    (fun sd hsd => hwt sd (List.mem_of_mem_filter hsd))

/-- **C5, witness.** On a registry with an `always` metric `MX` and an
`on_success` metric `S`, both for unit `U`, a failed completion emits
exactly for `MX`. -/
theorem emit_for_unit_trigger_filter_witness :
    (((emitterTriggers.emit_for_execution_unit ("U") 0 tcEx [] false).1.map
        (fun r => r.signal_name))
      = ((get_signals_for_execution_unit emitterTriggers.registry ("U")).filter
          (fun sd => trigger_allows sd false)).map (fun sd => sd.name))
    ∧ ((get_signals_for_execution_unit emitterTriggers.registry ("U")).filter
        (fun sd => trigger_allows sd false)).map (fun sd => sd.name) = ["MX"] :=
  ⟨emit_for_unit_trigger_filter emitterTriggers ("U") 0 tcEx [] false (by decide),
   by decide⟩

/-! ## Registry well-formedness lemmas -/

theorem bucketOk_alInsert (t : String) (l : List (String × SignalDefinition))
    (s : SignalDefinition) (h : bucketOk t l) (hs : s.signal_type = t) :
    bucketOk t (alInsert s.name s l) := by
  constructor
  · intro p hp
    rcases mem_alInsert p s.name s l hp with h2 | h2
    · subst h2; exact ⟨rfl, hs⟩
    · exact h.1 p h2
  · exact nodup_keys_alInsert s.name s l h.2

theorem registryOk_empty : RegistryOk SignalRegistry.empty := by
  refine ⟨⟨?_, ?_⟩, ⟨?_, ?_⟩, ⟨?_, ?_⟩⟩ <;> simp [SignalRegistry.empty]

theorem registryOk_add (r : SignalRegistry) (s : SignalDefinition) (h : RegistryOk r) :
    RegistryOk (r.add s) := by
  obtain ⟨hm, ho, ha⟩ := h
  unfold SignalRegistry.add
  by_cases h1 : s.signal_type = "metric"
  · simp only [if_pos h1]
    exact ⟨bucketOk_alInsert _ _ _ hm h1, ho, ha⟩
  · simp only [if_neg h1]
    by_cases h2 : s.signal_type = "outcome"
    · simp only [if_pos h2]
      exact ⟨hm, bucketOk_alInsert _ _ _ ho h2, ha⟩
    · simp only [if_neg h2]
      by_cases h3 : s.signal_type = "advisor"
      · simp only [if_pos h3]
        exact ⟨hm, ho, bucketOk_alInsert _ _ _ ha h3⟩
      · simp only [if_neg h3]
        exact ⟨hm, ho, ha⟩

theorem registryOk_build (sds : List SignalDefinition) : RegistryOk (buildRegistry sds) := by
  unfold buildRegistry
  have h : ∀ (l : List SignalDefinition) (r : SignalRegistry), RegistryOk r →
      RegistryOk (l.foldl SignalRegistry.add r) := by
    intro l
    induction l with
    | nil => intro r hr; exact hr
    | cons x xs ih => intro r hr; exact ih _ (registryOk_add r x hr)
  exact h sds _ registryOk_empty

/-- In a bucket with name-keys and duplicate-free keys, the number of
values named `n` is `1` when the key is present and `0` otherwise. -/
theorem countByName_bucket (l : List (String × SignalDefinition))
    (hkey : ∀ p ∈ l, p.1 = p.2.name) (hnd : (l.map Prod.fst).Nodup) (n : String) :
    countByName (l.map Prod.snd) n = if (alLookup n l).isSome then 1 else 0 := by
  induction l with
  | nil => simp [countByName, alLookup]
  | cons head tail ih =>
    obtain ⟨k, v⟩ := head
    have hk : k = v.name := hkey (k, v) (List.mem_cons_self _ _)
    simp only [List.map_cons, List.nodup_cons] at hnd
    have htail := fun p hp => hkey p (List.mem_cons_of_mem _ hp)
    have h0 := ih htail hnd.2
    by_cases h2 : k = n
    · subst h2
      have hlook : alLookup k tail = none := (alLookup_eq_none_iff k tail).mpr hnd.1
      have hlen : (List.filter (fun s => s.name == k) (List.map Prod.snd tail)).length = 0 := by
        rw [hlook] at h0
        simpa [countByName] using h0
      have hv : (v.name == k) = true := by
        rw [← hk]
        simp
      have hsome : alLookup k ((k, v) :: tail) = some v := by
        simp [alLookup]
      simp [countByName, List.filter_cons, hv, hsome, hlen]
    · have hv : (v.name == n) = false := by
        rw [← hk]
        simp [h2]
      simp only [countByName, List.map_cons, List.filter_cons, hv, Bool.false_eq_true,
        if_false, alLookup, if_neg h2]
      simpa [countByName] using h0

theorem countByName_append (a b : List SignalDefinition) (n : String) :
    countByName (a ++ b) n = countByName a n + countByName b n := by
  simp [countByName, List.filter_append]

/-- **C8, counterexample.** Adding an outcome signal named `X` to a
registry already holding a metric signal named `X` does not overwrite:
`get ("X")` still returns the old metric definition, not the newly added
one, and the registry now holds two definitions under the name `X`. -/
theorem signal_duplicate_cross_type_keeps_old :
    ((buildRegistry [exSigXMetric]).add exSigXOutcome).get ("X") = some exSigXMetric
    ∧ ¬ (((buildRegistry [exSigXMetric]).add exSigXOutcome).get ("X") = some exSigXOutcome)
    ∧ countByName ((buildRegistry [exSigXMetric]).add exSigXOutcome).get_all ("X") = 2 := by
  decide

/-- **C8, amended.** In a registry built by `add` calls, names are
unique within each of the three categories.  If the registry holds
exactly one definition under a name and a `SignalDefinition` with that
name and the *same* `signal_type` is added, the previous entry is
overwritten (last-loaded-wins): afterwards `get` returns the newly added
definition and the registry still holds exactly one definition under
that name.  (When the types differ, the new definition lands in its own
category, the old entry survives, and `get` keeps answering from the
earlier category — see the counterexample.) -/
theorem signal_duplicate_same_type_overwrites
    (sds : List SignalDefinition) (sd old : SignalDefinition)
    (hget : (buildRegistry sds).get sd.name = some old)
    (hty : old.signal_type = sd.signal_type)
    (huniq : countByName (buildRegistry sds).get_all sd.name = 1) :
    ((buildRegistry sds).add sd).get sd.name = some sd
    ∧ countByName ((buildRegistry sds).add sd).get_all sd.name = 1 := by
  obtain ⟨hm, ho, ha⟩ := registryOk_build sds
  set r := buildRegistry sds with hr
  have cmv := countByName_bucket r.metrics (fun p hp => (hm.1 p hp).1) hm.2 sd.name
  have cov := countByName_bucket r.outcomes (fun p hp => (ho.1 p hp).1) ho.2 sd.name
  have cav := countByName_bucket r.advisors (fun p hp => (ha.1 p hp).1) ha.2 sd.name
  have hsum : countByName r.get_all sd.name
      = countByName (r.metrics.map Prod.snd) sd.name
        + (countByName (r.outcomes.map Prod.snd) sd.name
           + countByName (r.advisors.map Prod.snd) sd.name) := by
    simp only [SignalRegistry.get_all, countByName_append]
    omega
  rw [hsum] at huniq
  cases hml : alLookup sd.name r.metrics with
  | some s1 =>
    simp only [SignalRegistry.get, hml, Option.some.injEq] at hget
    have hs1t : s1.signal_type = "metric" := (hm.1 _ (alLookup_mem _ _ _ hml)).2
    have hst : sd.signal_type = "metric" := by
      rw [← hty, ← hget]
      exact hs1t
    rw [hml] at cmv
    simp only [Option.isSome_some, if_true] at cmv
    constructor
    · simp only [SignalRegistry.add, if_pos hst, SignalRegistry.get]
      simp [alLookup_alInsert_self]
    · have hb := bucketOk_alInsert ("metric") r.metrics sd hm hst
      have cm2 := countByName_bucket (alInsert sd.name sd r.metrics)
        (fun p hp => (hb.1 p hp).1) hb.2 sd.name
      rw [alLookup_alInsert_self] at cm2
      simp only [Option.isSome_some, if_true] at cm2
      simp only [SignalRegistry.add, if_pos hst]
      have hsum2 : countByName
          ({ r with metrics := alInsert sd.name sd r.metrics } : SignalRegistry).get_all sd.name
          = countByName ((alInsert sd.name sd r.metrics).map Prod.snd) sd.name
            + (countByName (r.outcomes.map Prod.snd) sd.name
               + countByName (r.advisors.map Prod.snd) sd.name) := by
        simp only [SignalRegistry.get_all, countByName_append]
        omega
      rw [hsum2, cm2]
      omega
  | none =>
    rw [hml] at cmv
    simp only [Option.isSome_none, Bool.false_eq_true, if_false] at cmv
    cases hol : alLookup sd.name r.outcomes with
    | some s2 =>
      simp only [SignalRegistry.get, hml, hol, Option.some.injEq] at hget
      have hs2t : s2.signal_type = "outcome" := (ho.1 _ (alLookup_mem _ _ _ hol)).2
      have hst : sd.signal_type = "outcome" := by
        rw [← hty, ← hget]
        exact hs2t
      have hstm : ¬ sd.signal_type = "metric" := by
        rw [hst]
        decide
      rw [hol] at cov
      simp only [Option.isSome_some, if_true] at cov
      constructor
      · simp only [SignalRegistry.add, if_neg hstm, if_pos hst, SignalRegistry.get]
        simp [hml, alLookup_alInsert_self]
      · have hb := bucketOk_alInsert ("outcome") r.outcomes sd ho hst
        have co2 := countByName_bucket (alInsert sd.name sd r.outcomes)
          (fun p hp => (hb.1 p hp).1) hb.2 sd.name
        rw [alLookup_alInsert_self] at co2
        simp only [Option.isSome_some, if_true] at co2
        simp only [SignalRegistry.add, if_neg hstm, if_pos hst]
        have hsum2 : countByName
            ({ r with outcomes := alInsert sd.name sd r.outcomes } : SignalRegistry).get_all sd.name
            = countByName (r.metrics.map Prod.snd) sd.name
              + (countByName ((alInsert sd.name sd r.outcomes).map Prod.snd) sd.name
                 + countByName (r.advisors.map Prod.snd) sd.name) := by
          simp only [SignalRegistry.get_all, countByName_append]
          omega
        rw [hsum2, co2]
        omega
    | none =>
      simp only [SignalRegistry.get, hml, hol] at hget
      have hs3t : old.signal_type = "advisor" := (ha.1 _ (alLookup_mem _ _ _ hget)).2
      have hst : sd.signal_type = "advisor" := by
        rw [← hty]
        exact hs3t
      have hstm : ¬ sd.signal_type = "metric" := by
        rw [hst]
        decide
      have hsto : ¬ sd.signal_type = "outcome" := by
        rw [hst]
        decide
      rw [hol] at cov
      simp only [Option.isSome_none, Bool.false_eq_true, if_false] at cov
      constructor
      · simp only [SignalRegistry.add, if_neg hstm, if_neg hsto, if_pos hst, SignalRegistry.get]
        simp [hml, hol, alLookup_alInsert_self]
      · have hb := bucketOk_alInsert ("advisor") r.advisors sd ha hst
        have ca2 := countByName_bucket (alInsert sd.name sd r.advisors)
          (fun p hp => (hb.1 p hp).1) hb.2 sd.name
        rw [alLookup_alInsert_self] at ca2
        simp only [Option.isSome_some, if_true] at ca2
        simp only [SignalRegistry.add, if_neg hstm, if_neg hsto, if_pos hst]
        have hsum2 : countByName
            ({ r with advisors := alInsert sd.name sd r.advisors } : SignalRegistry).get_all sd.name
            = countByName (r.metrics.map Prod.snd) sd.name
              + (countByName (r.outcomes.map Prod.snd) sd.name
                 + countByName ((alInsert sd.name sd r.advisors).map Prod.snd) sd.name) := by
          simp only [SignalRegistry.get_all, countByName_append]
          omega
        rw [hsum2, ca2]
        omega

/-- **C8, witness.** Adding a second metric definition named `X` over an
existing metric `X` overwrites it: `get` returns the new definition and
the count under `X` stays one. -/
theorem signal_duplicate_same_type_overwrites_witness :
    ((buildRegistry [exSigXMetric]).add exSigXMetric2).get ("X") = some exSigXMetric2
    ∧ countByName ((buildRegistry [exSigXMetric]).add exSigXMetric2).get_all ("X") = 1 :=
  signal_duplicate_same_type_overwrites [exSigXMetric] exSigXMetric2 exSigXMetric
    (by decide) (by decide) (by decide)

/-- **C2, counterexample.** A source missing `capability.type` is NOT
excluded from `discover()`'s result: among three parseable sources of
which `B` lacks `capability.type`, all three cards are returned (`B`
with the type defaulted to the empty string), so the count is 3, not
the 2 well-formed sources the claim predicts. -/
theorem discover_includes_missing_capability_type :
    (discover_cards [Except.ok exRawA, Except.ok exRawB, Except.ok exRawC]).1.length = 3
    ∧ exRawB.capability_type = none
    ∧ load_card_from_data exRawB
        ∈ (discover_cards [Except.ok exRawA, Except.ok exRawB, Except.ok exRawC]).1
    ∧ (load_card_from_data exRawB).capability_type = ""
    ∧ ¬ ((discover_cards [Except.ok exRawA, Except.ok exRawB, Except.ok exRawC]).1.length = 2) := by
  decide

/-- **C2, amended.** `discover_cards` skips, with a recorded warning,
every source that fails to parse, and never aborts on one bad entry:
the result is exactly the parseable sources' cards in order, its length
is the number of parseable sources, one warning is recorded per parse
failure — but a parseable source missing a required field (such as
`capability.type`) is not excluded: its card is returned with the
missing fields defaulted. -/
theorem discover_skips_only_parse_failures (files : List CardSource) :
    (discover_cards files).1
      = files.filterMap (fun f =>
          match f with
          | Except.ok d => some (load_card_from_data d)
          | Except.error _ => none)
    ∧ (discover_cards files).1.length = (files.filter (fun f => isParsed f)).length
    ∧ (discover_cards files).2.length = (files.filter (fun f => ! isParsed f)).length
    ∧ (∀ d : RawCardData, Except.ok d ∈ files →
        load_card_from_data d ∈ (discover_cards files).1) := by
  induction files with
  | nil =>
    refine ⟨rfl, rfl, rfl, ?_⟩
    intro d h
    simp at h
  | cons f rest ih =>
    obtain ⟨ih1, ih2, ih3, ih4⟩ := ih
    cases f with
    | ok d =>
      refine ⟨?_, ?_, ?_, ?_⟩
      · simp [discover_cards, ih1]
      · simp [discover_cards, isParsed, ih2]
      · simp [discover_cards, isParsed, ih3]
      · intro d2 h2
        show load_card_from_data d2 ∈ load_card_from_data d :: (discover_cards rest).1
        rcases List.mem_cons.mp h2 with h3 | h3
        · rw [Except.ok.injEq] at h3
          rw [h3]
          exact List.mem_cons_self _ _
        · exact List.mem_cons_of_mem _ (ih4 d2 h3)
    | error e =>
      refine ⟨?_, ?_, ?_, ?_⟩
      · simp [discover_cards, ih1]
      · simp [discover_cards, isParsed, ih2]
      · simp [discover_cards, isParsed, ih3]
      · intro d2 h2
        show load_card_from_data d2 ∈ (discover_cards rest).1
        rcases List.mem_cons.mp h2 with h3 | h3
        · exact absurd h3 (by simp)
        · exact ih4 d2 h3

/-- **C2, witness.** A concrete parseable source's card is in the
result. -/
theorem discover_skips_only_parse_failures_witness :
    load_card_from_data exRawB
      ∈ (discover_cards [Except.ok exRawA, Except.ok exRawB]).1 :=
  (discover_skips_only_parse_failures [Except.ok exRawA, Except.ok exRawB]).2.2.2
    exRawB (List.mem_cons_of_mem _ (List.mem_cons_self _ _))

/-- Every entry of a table is kept by `unloadAllLoop` only if its
unregistration did not return `True`; when the client always returns
`True`, nothing is kept. -/
theorem unloadAllLoop_all_true (client : UnregisterModel)
    (h : ∀ card_id : Nat, client card_id = Except.ok true) :
    ∀ table : List (String × Nat), (unloadAllLoop client table).2 = [] := by
  intro table
  induction table with
  | nil => rfl
  | cons entry rest ih =>
    obtain ⟨n, cid⟩ := entry
    simp [unloadAllLoop, h cid, ih]

/-- **C3, counterexample.** With one card registered and an external
client whose `unregister_capability` returns `False`, `load_all()`
followed by `unload_all()` leaves the card tracked: `get_card_count()`
is 1, not 0, falsifying the claim for arbitrary unregister outcomes. -/
theorem unload_keeps_card_when_unregister_false :
    ((((exLoaderA.load_all (fun _ => Except.ok 1)).2).unload_all
        (fun _ => Except.ok false)).2.get_card_count = 1)
    ∧ ¬ ((((exLoaderA.load_all (fun _ => Except.ok 1)).2).unload_all
        (fun _ => Except.ok false)).2.get_card_count = 0) := by
  decide

/-- **C3, amended.** For every loader and register-oracle behaviour
(any subset of registrations succeeding or raising), `load_all()`
followed by `unload_all()` leaves the registered-card table empty
provided every `unregister_capability` call returns `True`; a card whose
unregistration returns `False` or raises remains tracked. -/
theorem unload_after_load_empties_when_unregister_true
    (L : RegistryCardLoader) (reg : RegisterModel) (unreg : UnregisterModel)
    (h : ∀ card_id : Nat, unreg card_id = Except.ok true) :
    (((L.load_all reg).2).unload_all unreg).2.get_card_count = 0 := by
  unfold RegistryCardLoader.unload_all RegistryCardLoader.get_card_count
  simp [unloadAllLoop_all_true unreg h]

/-- **C3, witness.** Concrete run with a successful registration and an
always-`True` unregistration ends with an empty table. -/
theorem unload_after_load_empties_when_unregister_true_witness :
    (((exLoaderA.load_all (fun _ => Except.ok 1)).2).unload_all
        (fun _ => Except.ok true)).2.get_card_count = 0 :=
  unload_after_load_empties_when_unregister_true exLoaderA (fun _ => Except.ok 1)
    (fun _ => Except.ok true) (fun _ => rfl)

/-- **C4, counterexample.** For an unsupported intent type the returned
failure's `error` field is the text `Unsupported intent type: <type>`,
not the code `UNSUPPORTED_INTENT` the claim states. -/
theorem unsupported_intent_error_text_not_code :
    (handle_intent none 0 ("BogusIntentZ") []).success = false
    ∧ (handle_intent none 0 ("BogusIntentZ") []).error
        = some ("Unsupported intent type: BogusIntentZ")
    ∧ ¬ ((handle_intent none 0 ("BogusIntentZ") []).error = some ("UNSUPPORTED_INTENT")) := by
  decide

/-- **C4, amended.** For every intent type not in the static mapping,
`handle_intent` returns (never raises) a structured failure with
`success = false` and `error = "Unsupported intent type: <type>"`. -/
theorem unsupported_intent_structured_failure
    (intent_type : String) (engine : Option IntentEngineModel) (intent_id : Nat)
    (params : List (String × String))
    (h : is_supported_intent intent_type = false) :
    (handle_intent engine intent_id intent_type params).success = false
    ∧ (handle_intent engine intent_id intent_type params).error
        = some ("Unsupported intent type: " ++ intent_type) := by
  unfold handle_intent
  rw [if_pos (by simp [h])]
  exact ⟨rfl, rfl⟩

/-- **C4, witness.** Concrete unsupported intent. -/
theorem unsupported_intent_structured_failure_witness :
    (handle_intent none 0 ("BogusIntent") []).success = false
    ∧ (handle_intent none 0 ("BogusIntent") []).error
        = some ("Unsupported intent type: " ++ "BogusIntent") :=
  unsupported_intent_structured_failure ("BogusIntent") none 0 [] (by decide)

/-- Every intent in the static table maps to a non-empty unit list. -/
theorem table_units_nonempty :
    ∀ p ∈ INTENT_TO_EXECUTION_UNITS, p.2.isEmpty = false := by
  decide

/-- **C6.** For every supported intent type, when a submission
collaborator is configured and its notification raises, `handle_intent`
returns an overall failure carrying the underlying error message instead
of the locally computed decomposition. -/
theorem notification_failure_overall_failure
    (intent_type : String) (intent_id : Nat) (params : List (String × String))
    (engine : IntentEngineModel) (e : String)
    (hsup : is_supported_intent intent_type = true)
    (hfail : engine intent_id (eu_specs_for intent_type) = Except.error e) :
    (handle_intent (some engine) intent_id intent_type params).success = false
    ∧ (handle_intent (some engine) intent_id intent_type params).error
        = some ("Failed to submit decomposition: " ++ e) := by
  unfold is_supported_intent at hsup
  cases hus : alLookup intent_type INTENT_TO_EXECUTION_UNITS with
  | none =>
    rw [hus] at hsup
    simp at hsup
  | some us =>
    have hne : us.isEmpty = false :=
      table_units_nonempty (intent_type, us) (alLookup_mem _ _ _ hus)
    have hf2 : engine intent_id (us.map euSpec) = Except.error e := by
      have hspec : eu_specs_for intent_type = us.map euSpec := by
        unfold eu_specs_for
        rw [hus]
        rfl
      rwa [hspec] at hfail
    unfold handle_intent get_execution_units_for_intent
    rw [if_neg (by simp [is_supported_intent, hus])]
    simp only [hus, hne, Bool.false_eq_true, if_false, hf2]
    refine ⟨?_, ?_⟩ <;> trivial

/-- **C6, witness.** Submitting `IngestData` to an engine that raises
returns the failure with the underlying message. -/
theorem notification_failure_overall_failure_witness :
    (handle_intent (some (fun _ _ => Except.error ("boom"))) 0 ("IngestData") []).success = false
    ∧ (handle_intent (some (fun _ _ => Except.error ("boom"))) 0 ("IngestData") []).error
        = some ("Failed to submit decomposition: " ++ "boom") :=
  notification_failure_overall_failure ("IngestData") 0 []
    (fun _ _ => Except.error ("boom")) ("boom") (by decide) rfl

/-- **C7.** Decomposing `IngestData` — with no submission collaborator,
or with one whose notification returns — succeeds with execution units
named exactly `[DataExtractor, DataWriter, LineageEdgeWriter]`, in that
order and nothing else. -/
theorem ingest_data_decomposition_ordered_units
    (intent_id : Nat) (params : List (String × String)) :
    ((handle_intent none intent_id ("IngestData") params).success = true
      ∧ ((handle_intent none intent_id ("IngestData") params).execution_units.getD []).map
          (fun s => s.name) = ["DataExtractor", "DataWriter", "LineageEdgeWriter"])
    ∧ ∀ (engine : IntentEngineModel) (b : Bool),
        engine intent_id (eu_specs_for ("IngestData")) = Except.ok b →
        ((handle_intent (some engine) intent_id ("IngestData") params).success = true
          ∧ ((handle_intent (some engine) intent_id
              ("IngestData") params).execution_units.getD []).map
              (fun s => s.name) = ["DataExtractor", "DataWriter", "LineageEdgeWriter"]) := by
  constructor
  · exact ⟨rfl, rfl⟩
  · intro engine b hok
    have hred : handle_intent (some engine) intent_id ("IngestData") params
        = match engine intent_id (eu_specs_for ("IngestData")) with
          | Except.ok _ =>
            { success := true, error := none,
              intent_id := some (toString intent_id), intent_type := some ("IngestData"),
              domain := "data-fabric",
              execution_units := some (eu_specs_for ("IngestData")),
              unit_count := some (eu_specs_for ("IngestData")).length }
          | Except.error e =>
            { success := false,
              error := some ("Failed to submit decomposition: " ++ e),
              intent_id := none, intent_type := none, domain := "data-fabric",
              execution_units := none, unit_count := none } := rfl
    rw [hred, hok]
    exact ⟨rfl, rfl⟩

/-- **C7, witness.** Concrete decompositions with no engine and with an
engine returning normally. -/
theorem ingest_data_decomposition_ordered_units_witness :
    ((handle_intent none 7 ("IngestData") []).success = true
      ∧ ((handle_intent none 7 ("IngestData") []).execution_units.getD []).map
          (fun s => s.name) = ["DataExtractor", "DataWriter", "LineageEdgeWriter"])
    ∧ ((handle_intent (some (fun _ _ => Except.ok true)) 7 ("IngestData") []).success = true
      ∧ ((handle_intent (some (fun _ _ => Except.ok true)) 7
          ("IngestData") []).execution_units.getD []).map
          (fun s => s.name) = ["DataExtractor", "DataWriter", "LineageEdgeWriter"]) :=
  ⟨(ingest_data_decomposition_ordered_units 7 []).1,
   (ingest_data_decomposition_ordered_units 7 []).2 (fun _ _ => Except.ok true) true rfl⟩

/-- **C10.** A provider constructed without an MCOP scheduler:
`provide_all_capabilities` maps each of the 22 execution-unit names to
`True` yet adds nothing to the provided-capabilities set —
`get_provided_capabilities` is the empty set afterwards, exactly as
before the call. -/
theorem provide_all_no_scheduler_frame :
    providerNoSched.provide_all_capabilities.1
        = EXECUTION_UNIT_CAPABILITIES.map (fun entry => (entry.1, true))
    ∧ providerNoSched.provide_all_capabilities.1.map Prod.fst
        = ["DataAssetRegistrar", "ConnectionProbe", "SchemaIntrospector", "DataExtractor",
           "DataWriter", "TransformExecutor", "DataJoiner", "AggregationComputer",
           "FeatureComputer", "FeatureStoreWriter", "FeatureRetriever", "DataProfiler",
           "SchemaValidator", "DataCommitter", "BranchCreator", "MergeComputer",
           "DataReplicator", "LocalitySignalGenerator", "LabelTaskCreator", "LabelRecorder",
           "LineageEdgeWriter", "QualityGateEvaluator"]
    ∧ providerNoSched.provide_all_capabilities.1.length = 22
    ∧ providerNoSched.provide_all_capabilities.1.all (fun entry => entry.2) = true
    ∧ providerNoSched.provide_all_capabilities.2.get_provided_capabilities = []
    ∧ providerNoSched.get_provided_capabilities = [] :=
  ⟨rfl, rfl, rfl, rfl, rfl, rfl⟩
